import Mathlib

/-!
Verification of the webhook trampoline gateway
(modules/github-events, package trampoline).

Bytes are modelled as lists of naturals below 256; machine 32-bit words as
naturals reduced modulo 2^32.  The SHA-256 and HMAC-SHA256 primitives used by
signature verification are embedded concretely.  The pieces of the server that
live behind external libraries (JSON decoding, envelope serialization, the
cloudevents transport, request cancellation) are modelled at their boundary as
explicit parameters of the handler.
-/

namespace Trampoline

/-- Raw bytes: each entry is one octet. -/
abbrev Bytes := List Nat

/-- Reduce to a 32-bit machine word. -/
def w32 (x : Nat) : Nat := x % 4294967296

/-- Rotate a 32-bit word right by n. -/
def rotr (n x : Nat) : Nat := w32 ((x >>> n) ||| (x <<< (32 - n)))

/-- SHA-256 big sigma 0. -/
def bsig0 (x : Nat) : Nat := rotr 2 x ^^^ rotr 13 x ^^^ rotr 22 x

/-- SHA-256 big sigma 1. -/
def bsig1 (x : Nat) : Nat := rotr 6 x ^^^ rotr 11 x ^^^ rotr 25 x

/-- SHA-256 small sigma 0. -/
def ssig0 (x : Nat) : Nat := rotr 7 x ^^^ rotr 18 x ^^^ (x >>> 3)

/-- SHA-256 small sigma 1. -/
def ssig1 (x : Nat) : Nat := rotr 17 x ^^^ rotr 19 x ^^^ (x >>> 10)

/-- The 64 SHA-256 round constants (decimal). -/
def sha256K : List Nat :=
  [1116352408, 1899447441, 3049323471, 3921009573, 961987163, 1508970993,
   2453635748, 2870763221, 3624381080, 310598401, 607225278, 1426881987,
   1925078388, 2162078206, 2614888103, 3248222580, 3835390401, 4022224774,
   264347078, 604807628, 770255983, 1249150122, 1555081692, 1996064986,
   2554220882, 2821834349, 2952996808, 3210313671, 3336571891, 3584528711,
   113926993, 338241895, 666307205, 773529912, 1294757372, 1396182291,
   1695183700, 1986661051, 2177026350, 2456956037, 2730485921, 2820302411,
   3259730800, 3345764771, 3516065817, 3600352804, 4094571909, 275423344,
   430227734, 506948616, 659060556, 883997877, 958139571, 1322822218,
   1537002063, 1747873779, 1955562222, 2024104815, 2227730452, 2361852424,
   2428436474, 2756734187, 3204031479, 3329325298]

/-- The eight SHA-256 working registers. -/
structure Hash8 where
  a : Nat
  b : Nat
  c : Nat
  d : Nat
  e : Nat
  f : Nat
  g : Nat
  h : Nat
deriving DecidableEq

/-- SHA-256 initial hash value (decimal). -/
def initH : Hash8 :=
  ⟨1779033703, 3144134277, 1013904242, 2773480762,
   1359893119, 2600822924, 528734635, 1541459225⟩

/-- One SHA-256 compression round; `kw` is the round constant plus the
message-schedule word, already reduced mod 2^32. -/
def shaRound (st : Hash8) (kw : Nat) : Hash8 :=
  let ch := (st.e &&& st.f) ^^^ ((st.e ^^^ 4294967295) &&& st.g)
  let maj := (st.a &&& st.b) ^^^ (st.a &&& st.c) ^^^ (st.b &&& st.c)
  let t1 := w32 (st.h + bsig1 st.e + ch + kw)
  let t2 := w32 (bsig0 st.a + maj)
  ⟨w32 (t1 + t2), st.a, st.b, st.c, w32 (st.d + t1), st.e, st.f, st.g⟩

/-- Fold the 64 rounds over the K constants and schedule words. -/
def shaRounds : Hash8 → List Nat → List Nat → Hash8
  | st, k :: ks, w :: ws => shaRounds (shaRound st (w32 (k + w))) ks ws
  | st, _, _ => st

/-- Extend a 16-word block to the 64-word message schedule, `n` words at a
time. -/
def extendSchedule : List Nat → Nat → List Nat
  | w, 0 => w
  | w, n + 1 =>
    let i := w.length
    let t := w32 (w.getD (i - 16) 0 + ssig0 (w.getD (i - 15) 0)
      + w.getD (i - 7) 0 + ssig1 (w.getD (i - 2) 0))
    extendSchedule (w ++ [t]) n

/-- SHA-256 block compression. -/
def compress (st : Hash8) (block : List Nat) : Hash8 :=
  let w := extendSchedule block 48
  let r := shaRounds st sha256K w
  ⟨w32 (st.a + r.a), w32 (st.b + r.b), w32 (st.c + r.c), w32 (st.d + r.d),
   w32 (st.e + r.e), w32 (st.f + r.f), w32 (st.g + r.g), w32 (st.h + r.h)⟩

/-- Big-endian bytes to 32-bit words, four bytes per word. -/
def toWords : List Nat → List Nat
  | b0 :: b1 :: b2 :: b3 :: rest =>
    (b0 * 16777216 + b1 * 65536 + b2 * 256 + b3) :: toWords rest
  | _ => []

/-- Split a word stream into 16-word blocks. -/
def chunkWords : List Nat → List (List Nat)
  | w0 :: w1 :: w2 :: w3 :: w4 :: w5 :: w6 :: w7 ::
    w8 :: w9 :: w10 :: w11 :: w12 :: w13 :: w14 :: w15 :: rest =>
    [w0, w1, w2, w3, w4, w5, w6, w7, w8, w9, w10, w11, w12, w13, w14, w15]
      :: chunkWords rest
  | _ => []

/-- A 64-bit length, big-endian. -/
def be64 (n : Nat) : List Nat :=
  [(n >>> 56) % 256, (n >>> 48) % 256, (n >>> 40) % 256, (n >>> 32) % 256,
   (n >>> 24) % 256, (n >>> 16) % 256, (n >>> 8) % 256, n % 256]

/-- SHA-256 message padding: a 0x80 byte, zeros to 56 mod 64, then the bit
length. -/
def sha256pad (msg : Bytes) : Bytes :=
  msg ++ 128 :: (List.replicate ((119 - msg.length % 64) % 64) 0
    ++ be64 (8 * msg.length))

/-- Words of 32 bits back to big-endian bytes. -/
def wordsToBytes : List Nat → Bytes
  | [] => []
  | w :: ws =>
    (w >>> 24) % 256 :: (w >>> 16) % 256 :: (w >>> 8) % 256 :: w % 256
      :: wordsToBytes ws

/-- SHA-256 of a byte string. -/
def sha256 (msg : Bytes) : Bytes :=
  let st := (chunkWords (toWords (sha256pad msg))).foldl compress initH
  wordsToBytes [st.a, st.b, st.c, st.d, st.e, st.f, st.g, st.h]

/-- HMAC-SHA256 (RFC 2104 with a 64-byte block). -/
def hmacSHA256 (key msg : Bytes) : Bytes :=
  let k0 := if key.length > 64 then sha256 key else key
  let kp := k0 ++ List.replicate (64 - k0.length) 0
  sha256 ((kp.map fun b => b ^^^ 92) ++ sha256 ((kp.map fun b => b ^^^ 54) ++ msg))

/-- Modelled from the spec: the trampoline ServerOptions record (the server
implementation file is absent from the sources; only its tests are present).
An empty allow-list means no restriction of that kind. -/
structure ServerOptions where
  secrets : List Bytes
  webhookID : List String
  orgFilter : List String
  requestedOnlyWebhook : List String
deriving DecidableEq

/-- Repository sub-record of PayloadInfo. -/
structure RepositoryInfo where
  fullName : String := ""
  ownerLogin : String := ""
  name : String := ""
deriving DecidableEq

/-- Pull-request sub-record of PayloadInfo. -/
structure PullRequestInfo where
  number : Nat := 0
  merged : Bool := false
deriving DecidableEq

/-- Issue sub-record of PayloadInfo; the marker is the presence of the
pull_request field on the issue object. -/
structure IssueInfo where
  number : Nat := 0
  hasPullRequestMarker : Bool := false
deriving DecidableEq

/-- check_run / check_suite sub-record: the numbers of the associated pull
requests, in payload order. -/
structure CheckInfo where
  pullRequests : List Nat := []
deriving DecidableEq

/-- Organization sub-record of PayloadInfo; an absent organization decodes to
an empty login. -/
structure OrgInfo where
  login : String := ""
deriving DecidableEq

/-- Modelled from the spec: the permissive structural view of the payload
(PayloadInfo in the absent server file; its shape is pinned by the in-repo
tests).  Every field is zero-valued when absent from the wire payload. -/
structure PayloadInfo where
  action : String := ""
  number : Nat := 0
  repository : RepositoryInfo := {}
  pullRequest : PullRequestInfo := {}
  issue : IssueInfo := {}
  organization : OrgInfo := {}
  checkRun : CheckInfo := {}
  checkSuite : CheckInfo := {}
deriving DecidableEq

/-- The maximally-empty PayloadInfo used when JSON decoding fails. -/
def emptyPayloadInfo : PayloadInfo := {}

/-- An inbound webhook request, after transport decoding: the raw body bytes,
the hex-decoded HMAC from the signature header, and the consumed header
values.  A missing header decodes to the empty string. -/
structure Request where
  host : String
  body : Bytes
  signature : Bytes
  eventType : String
  hookID : String
  deliveryID : String
  userAgent : String
deriving DecidableEq

/-- Signature verification: the body's HMAC-SHA256 is recomputed under each
configured secret in turn and compared against the presented MAC; any match
accepts.  (The comparison is constant-time in the implementation; as a pure
function it is equality.) -/
def validSignature (secrets : List Bytes) (body sig : Bytes) : Bool :=
  secrets.any fun s => hmacSHA256 s body == sig

/-- Modelled from the spec: the admission filter of the absent server file.
Each criterion is default-permissive when its list is empty, and all three are
combined with logical AND. -/
def shouldForward (opts : ServerOptions) (hookID : String) (p : PayloadInfo) : Bool :=
  decide ((opts.webhookID = [] ∨ hookID ∈ opts.webhookID)
    ∧ (opts.orgFilter = [] ∨ p.organization.login ∈ opts.orgFilter)
    ∧ (hookID ∈ opts.requestedOnlyWebhook → p.action = "requested"))

/-- Modelled from the spec: extractPullRequestInfo of the absent server file.
The in-repo tests (TestExtractPullRequestInfo) pin the repository identifier
to the full_name field: the extension value is "full_name#number". -/
def extractPullRequestInfo (eventType : String) (p : PayloadInfo) : String :=
  if eventType = "pull_request" ∧ p.pullRequest.number ≠ 0
      ∧ p.repository.fullName ≠ "" then
    p.repository.fullName ++ "#" ++ toString p.pullRequest.number
  else ""

/-- Modelled from the spec: the pull-request number selected per event type by
extractPullRequestURL. -/
def prNumberFor (eventType : String) (p : PayloadInfo) : Nat :=
  if eventType = "pull_request" ∨ eventType = "pull_request_review"
      ∨ eventType = "pull_request_review_comment" then
    p.pullRequest.number
  else if eventType = "check_run" then p.checkRun.pullRequests.headD 0
  else if eventType = "check_suite" then p.checkSuite.pullRequests.headD 0
  else if eventType = "issue_comment" then
    if p.issue.hasPullRequestMarker then p.issue.number else 0
  else 0

/-- Modelled from the spec: extractPullRequestURL of the absent server file
(pinned by TestExtractPullRequestURL and
TestPullRequestURLExtensionMultipleEventTypes). -/
def extractPullRequestURL (eventType : String) (p : PayloadInfo) : String :=
  if p.repository.ownerLogin = "" ∨ p.repository.name = "" then ""
  else if prNumberFor eventType p = 0 then ""
  else "https://github.com/" ++ p.repository.ownerLogin ++ "/"
    ++ p.repository.name ++ "/pull/" ++ toString (prNumberFor eventType p)

/-- Modelled from the spec: extractIssueURL of the absent server file (pinned
by TestExtractIssueURL). -/
def extractIssueURL (eventType : String) (p : PayloadInfo) : String :=
  if (eventType = "issues" ∨ eventType = "issue_comment")
      ∧ p.issue.hasPullRequestMarker = false
      ∧ p.repository.ownerLogin ≠ "" ∧ p.repository.name ≠ ""
      ∧ p.issue.number ≠ 0 then
    "https://github.com/" ++ p.repository.ownerLogin ++ "/"
      ++ p.repository.name ++ "/issues/" ++ toString p.issue.number
  else ""

/-- Modelled from the spec: isPullRequestMerged of the absent server file
(pinned by TestIsPullRequestMerged). -/
def isPullRequestMerged (eventType : String) (p : PayloadInfo) : Bool :=
  decide (eventType = "pull_request" ∧ p.action = "closed"
    ∧ p.pullRequest.merged = true)

/-- The namespace the inbound event type is prepended with. -/
def ghNamespace : String := "dev.chainguard.github."

/-- The four whitelisted header values copied verbatim into the envelope. -/
structure EventHeaders where
  hookID : String
  deliveryID : String
  userAgent : String
  event : String
deriving DecidableEq

/-- The event envelope serialized into the outbound message's data: the clock
timestamp, the whitelisted headers, and the raw body bytes. -/
structure EventData where
  when : Nat
  headers : EventHeaders
  body : Bytes
deriving DecidableEq

/-- The outbound bus message.  Extension values are strings (the boolean
merged extension is rendered as "true"). -/
structure OutboundEvent where
  eventType : String
  source : String
  subject : String
  id : String
  extensions : List (String × String)
  data : EventData
deriving DecidableEq

/-- Modelled from the spec: the extension map built incrementally by the
absent server file: action and githubhook always, then the derived extensions
whenever their extractor yields a non-empty value. -/
def buildExtensions (eventType : String) (hookID : String) (p : PayloadInfo) :
    List (String × String) :=
  [("action", p.action), ("githubhook", hookID)]
    ++ (if extractPullRequestInfo eventType p ≠ "" then
          [("pullrequest", extractPullRequestInfo eventType p)] else [])
    ++ (if extractPullRequestURL eventType p ≠ "" then
          [("pullrequesturl", extractPullRequestURL eventType p)] else [])
    ++ (if extractIssueURL eventType p ≠ "" then
          [("issueurl", extractIssueURL eventType p)] else [])
    ++ (if isPullRequestMerged eventType p then [("merged", "true")] else [])

/-- Whether the outbound event carries an extension under the given key. -/
def hasExtension (ev : OutboundEvent) (key : String) : Bool :=
  ev.extensions.any fun kv => kv.1 == key

/-- The outbound event assembled for an accepted delivery. -/
def buildEvent (now : Nat) (req : Request) (p : PayloadInfo) : OutboundEvent :=
  { eventType := ghNamespace ++ req.eventType
    source := req.host
    subject := p.repository.fullName
    id := req.deliveryID
    extensions := buildExtensions req.eventType req.hookID p
    data := { when := now
              headers := { hookID := req.hookID, deliveryID := req.deliveryID
                           userAgent := req.userAgent, event := req.eventType }
              body := req.body } }

/-- The delivery client's result for one attempt. -/
inductive SendOutcome
  | ack
  | nack
  | undelivered
deriving DecidableEq

/-- The initial backoff delay, in milliseconds. -/
def retryDelayMs : Nat := 10

/-- The retry bound: the send is attempted at most this many times. -/
def maxRetry : Nat := 3

/-- Modelled from the spec: the retrying send.  `attempts k` is the outcome
the transport would produce for attempt number `k`; the second result
component lists the backoff waits performed, the wait after attempt `k` being
retryDelayMs * 2 ^ k.  The Nat argument is the number of retries remaining
after the current attempt. -/
def trySend (attempts : Nat → SendOutcome) : Nat → Nat → SendOutcome × List Nat
  | k, 0 => (attempts k, [])
  | k, n + 1 =>
    match attempts k with
    | SendOutcome.ack => (SendOutcome.ack, [])
    | _ =>
      let rest := trySend attempts (k + 1) n
      (rest.1, retryDelayMs * 2 ^ k :: rest.2)

/-- The bounded-retry send: at most maxRetry attempts in total. -/
def sendWithRetry (attempts : Nat → SendOutcome) : SendOutcome × List Nat :=
  trySend attempts 0 (maxRetry - 1)

/-- A request-scoped context, reduced to its cancellation bit. -/
structure Ctx where
  cancelled : Bool
deriving DecidableEq

/-- context.WithoutCancel: the derived context is never cancelled. -/
def withoutCancel (_ : Ctx) : Ctx := ⟨false⟩

/-- A send under a context: a cancelled context aborts the attempt as
undelivered; otherwise the bounded-retry send runs. -/
def sendCtx (ctx : Ctx) (attempts : Nat → SendOutcome) : SendOutcome × List Nat :=
  if ctx.cancelled then (SendOutcome.undelivered, []) else sendWithRetry attempts

/-- The handler's observable outcome: the HTTP status written and the
outbound events handed to the delivery client (in order). -/
structure Response where
  status : Nat
  sent : List OutboundEvent
deriving DecidableEq

/-- Modelled from the spec: the gateway handler of the absent server file
(its state machine is spec section 4.6; statuses are pinned by the in-repo
tests).  `parsed` is the result of JSON-decoding the raw body into
PayloadInfo (none on malformed JSON); `serializeOk` abstracts whether
serializing the envelope into the outbound event's data succeeds; `attempts`
abstracts the transport outcome of each delivery attempt. -/
def handle (opts : ServerOptions) (now : Nat) (reqCtx : Ctx) (req : Request)
    (parsed : Option PayloadInfo) (serializeOk : Bool)
    (attempts : Nat → SendOutcome) : Response :=
  if validSignature opts.secrets req.body req.signature then
    if req.eventType = "" then ⟨400, []⟩
    else
      let p := parsed.getD emptyPayloadInfo
      if shouldForward opts req.hookID p then
        if serializeOk then
          let ev := buildEvent now req p
          if (sendCtx (withoutCancel reqCtx) attempts).1 = SendOutcome.ack then
            ⟨200, [ev]⟩
          else ⟨500, [ev]⟩
        else ⟨500, []⟩
      else ⟨202, []⟩
  else ⟨403, []⟩

/-- A concrete secret (the bytes of the test secret). -/
def wSecret : Bytes := [104, 117, 110, 116, 101, 114, 50]

/-- A concrete raw body. -/
def wBody : Bytes := [123, 125]

/-- The matching MAC for wBody under wSecret. -/
def wMac : Bytes := hmacSHA256 wSecret wBody

/-- A concrete well-signed request. -/
def wReq : Request :=
  { host := "localhost", body := wBody, signature := wMac
    eventType := "push", hookID := "1234", deliveryID := "5678"
    userAgent := "test" }

/-- Options with one secret and no filters. -/
def wOpts : ServerOptions := ⟨[wSecret], [], [], []⟩

/-- Options with one secret and an organization allow-list. -/
def wOptsOrg : ServerOptions := ⟨[wSecret], [], ["org"], []⟩

/-- A payload whose organization login is allow-listed by wOptsOrg. -/
def wOrgPayload : PayloadInfo := { organization := { login := "org" } }

/-- A transport that acknowledges on the first attempt. -/
def wAck : Nat → SendOutcome := fun _ => SendOutcome.ack

/-- A transport whose every attempt is refused. -/
def wNack : Nat → SendOutcome := fun _ => SendOutcome.nack

/-- A concrete issue_comment request (same signed body). -/
def wReqIC : Request := { wReq with eventType := "issue_comment" }

/-- An issue_comment payload carrying the pull-request marker. -/
def wICPayload : PayloadInfo :=
  { issue := { number := 789, hasPullRequestMarker := true }
    repository := { fullName := "foo/bar", ownerLogin := "foo", name := "bar" } }

/-- A concrete request with an empty event-type header. -/
def wReqNoType : Request := { wReq with eventType := "" }

/-- The payload of the C4 counterexample: a pull_request payload whose
repository carries only full_name, with empty owner login and name. -/
def c4Payload : PayloadInfo :=
  { pullRequest := { number := 123 }, repository := { fullName := "foo/bar" } }

end Trampoline

namespace Trampoline

/-- A string of nonzero length is not the empty string. -/
theorem ne_empty_of_length_pos {s : String} (h : 0 < s.length) : s ≠ "" := by
  intro e
  subst e
  simp at h

/-- Appending anything to a non-empty string stays non-empty. -/
theorem append_ne_of_left {s : String} (t : String) (h : s ≠ "") : s ++ t ≠ "" := by
  apply ne_empty_of_length_pos
  rw [String.length_append]
  rcases Nat.eq_zero_or_pos s.length with h0 | h0
  · exact absurd (by cases s with
      | mk data =>
        cases data with
        | nil => rfl
        | cons c cs => simp [String.length] at h0) h
  · omega

/-- Appending a non-empty string to anything stays non-empty. -/
theorem append_ne_of_right (s : String) {t : String} (h : t ≠ "") : s ++ t ≠ "" := by
  apply ne_empty_of_length_pos
  rw [String.length_append]
  rcases Nat.eq_zero_or_pos t.length with h0 | h0
  · exact absurd (by cases t with
      | mk data =>
        cases data with
        | nil => rfl
        | cons c cs => simp [String.length] at h0) h
  · omega

/-- The handler rejects with 403 when no secret matches. -/
theorem handle_sig_false (opts : ServerOptions) (now : Nat) (c : Ctx)
    (req : Request) (parsed : Option PayloadInfo) (sOk : Bool)
    (att : Nat → SendOutcome)
    (h : validSignature opts.secrets req.body req.signature = false) :
    handle opts now c req parsed sOk att = ⟨403, []⟩ := by
  simp [handle, h]

/-- On an admitted, serializable delivery the handler's outcome is decided by
the retrying send. -/
theorem handle_accepted_eq (opts : ServerOptions) (now : Nat) (c : Ctx)
    (req : Request) (parsed : Option PayloadInfo) (att : Nat → SendOutcome)
    (hsig : validSignature opts.secrets req.body req.signature = true)
    (ht : req.eventType ≠ "")
    (hfwd : shouldForward opts req.hookID (parsed.getD emptyPayloadInfo) = true) :
    handle opts now c req parsed true att
      = if (sendWithRetry att).1 = SendOutcome.ack
        then ⟨200, [buildEvent now req (parsed.getD emptyPayloadInfo)]⟩
        else ⟨500, [buildEvent now req (parsed.getD emptyPayloadInfo)]⟩ := by
  simp [handle, hsig, ht, hfwd, sendCtx, withoutCancel]

/-- The bounded-retry send stops on the first acknowledgement. -/
theorem sendWithRetry_ack {att : Nat → SendOutcome}
    (h : att 0 = SendOutcome.ack) :
    sendWithRetry att = (SendOutcome.ack, []) := by
  simp [sendWithRetry, maxRetry, trySend, h]

/-- The bounded-retry send makes at most maxRetry attempts, and its waits
double from retryDelayMs. -/
theorem sendWithRetry_bound (att : Nat → SendOutcome) :
    (sendWithRetry att).2.length + 1 ≤ maxRetry
    ∧ (sendWithRetry att).2
        = (List.range (sendWithRetry att).2.length).map
            fun k => retryDelayMs * 2 ^ k := by
  cases h0 : att 0 <;> cases h1 : att 1 <;>
    simp [sendWithRetry, maxRetry, trySend, h0, h1, retryDelayMs] <;>
    decide

/-- Claim C1: signature verification accepts exactly when the HMAC-SHA256 of
the raw body under at least one configured secret equals the presented MAC;
the outcome is invariant under reordering of the configured secrets; with
zero configured secrets every request is rejected; and a rejected request is
answered 403 with an empty delivery list, whatever the parse, serialization
and transport outcomes would have been. -/
theorem C1_signature_verification (opts : ServerOptions) (now : Nat) (c : Ctx)
    (req : Request) (parsed : Option PayloadInfo) (sOk : Bool)
    (att : Nat → SendOutcome) :
    (validSignature opts.secrets req.body req.signature = true ↔
      ∃ s ∈ opts.secrets, hmacSHA256 s req.body = req.signature)
    ∧ (∀ secrets₂, List.Perm opts.secrets secrets₂ →
        validSignature secrets₂ req.body req.signature
          = validSignature opts.secrets req.body req.signature)
    ∧ (opts.secrets = [] →
        validSignature opts.secrets req.body req.signature = false)
    ∧ (validSignature opts.secrets req.body req.signature = false →
        handle opts now c req parsed sOk att = ⟨403, []⟩) := by
  refine ⟨?_, ?_, ?_, ?_⟩
  · simp [validSignature, List.any_eq_true, beq_iff_eq]
  · intro secrets₂ hp
    rw [Bool.eq_iff_iff]
    simp only [validSignature, List.any_eq_true]
    constructor
    · rintro ⟨x, hx, hfx⟩
      exact ⟨x, hp.mem_iff.mpr hx, hfx⟩
    · rintro ⟨x, hx, hfx⟩
      exact ⟨x, hp.mem_iff.mp hx, hfx⟩
  · intro h
    rw [h]
    rfl
  · exact handle_sig_false opts now c req parsed sOk att

/-- Witness for C1 at a concrete rejected request: empty secret set. -/
theorem C1_signature_verification_witness :
    handle ⟨[], [], [], []⟩ 0 ⟨false⟩ wReq none true wAck = ⟨403, []⟩ :=
  (C1_signature_verification ⟨[], [], [], []⟩ 0 ⟨false⟩ wReq none true
    wAck).2.2.2 rfl

/-- Claim C8: a signature-verified request with an empty event-type header is
answered 400 with no delivery, and the outcome does not depend on the parse
result, the serialization outcome, the transport, or the configured
allow-lists: it is decided before filtering and before any use of the parsed
payload. -/
theorem C8_missing_event_type (opts : ServerOptions) (now : Nat) (c : Ctx)
    (req : Request) (parsed : Option PayloadInfo) (sOk : Bool)
    (att : Nat → SendOutcome)
    (hsig : validSignature opts.secrets req.body req.signature = true)
    (ht : req.eventType = "") :
    handle opts now c req parsed sOk att = ⟨400, []⟩
    ∧ (∀ (parsed₂ : Option PayloadInfo) (sOk₂ : Bool)
        (att₂ : Nat → SendOutcome),
        handle opts now c req parsed₂ sOk₂ att₂ = ⟨400, []⟩)
    ∧ (∀ opts₂ : ServerOptions, opts₂.secrets = opts.secrets →
        handle opts₂ now c req parsed sOk att = ⟨400, []⟩) := by
  refine ⟨?_, ?_, ?_⟩
  · simp [handle, hsig, ht]
  · intro parsed₂ sOk₂ att₂
    simp [handle, hsig, ht]
  · intro opts₂ hs
    simp [handle, hs, hsig, ht]

/-- Witness for C8: the concrete well-signed request with no event type. -/
theorem C8_missing_event_type_witness :
    handle wOpts 0 ⟨false⟩ wReqNoType none true wAck = ⟨400, []⟩ :=
  (C8_missing_event_type wOpts 0 ⟨false⟩ wReqNoType none true wAck
    (by simp [wOpts, wReqNoType, wReq, validSignature, wMac]) rfl).1

/-- Claim C9: the handler's outcome never depends on the inbound request
context's cancellation state, because the retrying send runs under a context
from which cancellation has been stripped: under such a context the send is
exactly the bounded-retry send, never the cancelled abort. -/
theorem C9_delivery_decoupled (opts : ServerOptions) (now : Nat)
    (req : Request) (parsed : Option PayloadInfo) (sOk : Bool)
    (att : Nat → SendOutcome) (c₁ c₂ : Ctx) :
    handle opts now c₁ req parsed sOk att = handle opts now c₂ req parsed sOk att
    ∧ (∀ c : Ctx, sendCtx (withoutCancel c) att = sendWithRetry att)
    ∧ (∀ c : Ctx, (withoutCancel c).cancelled = false) := by
  refine ⟨?_, fun c => rfl, fun c => rfl⟩
  simp [handle, sendCtx, withoutCancel]

/-- Witness for C9: a cancelled and a live inbound context give the same
outcome. -/
theorem C9_delivery_decoupled_witness :
    handle wOpts 0 ⟨true⟩ wReq none true wAck
      = handle wOpts 0 ⟨false⟩ wReq none true wAck :=
  (C9_delivery_decoupled wOpts 0 wReq none true wAck ⟨true⟩ ⟨false⟩).1

/-- On the maximally-empty payload no derived extension is produced, whatever
the event type. -/
theorem buildExtensions_empty (t hook : String) :
    buildExtensions t hook emptyPayloadInfo
      = [("action", ""), ("githubhook", hook)] := by
  simp [buildExtensions, extractPullRequestInfo, extractPullRequestURL,
    extractIssueURL, isPullRequestMerged, emptyPayloadInfo, prNumberFor]

/-- Claim C2: an admission criterion whose list is empty imposes no
restriction, the three criteria are conjoined, and on a verified, typed
delivery (with healthy serialization and transport) a filtered delivery is
answered 202 with nothing handed to the delivery client while a passing
delivery is answered 200 with exactly the one built event delivered. -/
theorem C2_admission_filter (opts : ServerOptions) (now : Nat) (c : Ctx)
    (req : Request) (p : PayloadInfo) (att : Nat → SendOutcome)
    (hsig : validSignature opts.secrets req.body req.signature = true)
    (ht : req.eventType ≠ "") (hack : att 0 = SendOutcome.ack) :
    (shouldForward opts req.hookID p = true ↔
      ((opts.webhookID = [] ∨ req.hookID ∈ opts.webhookID)
        ∧ (opts.orgFilter = [] ∨ p.organization.login ∈ opts.orgFilter)
        ∧ (req.hookID ∈ opts.requestedOnlyWebhook → p.action = "requested")))
    ∧ (shouldForward opts req.hookID p = false →
        handle opts now c req (some p) true att = ⟨202, []⟩)
    ∧ (shouldForward opts req.hookID p = true →
        handle opts now c req (some p) true att
          = ⟨200, [buildEvent now req p]⟩) := by
  refine ⟨by simp [shouldForward]; intro _ _; exact imp_iff_not_or.symm, ?_, ?_⟩
  · intro hfalse
    simp [handle, hsig, ht, hfalse]
  · intro htrue
    rw [handle_accepted_eq opts now c req (some p) att hsig ht htrue,
      sendWithRetry_ack hack]
    simp

/-- Witness for C2: the organization allow-list admits the listed login. -/
theorem C2_admission_filter_witness :
    handle wOptsOrg 0 ⟨false⟩ wReq (some wOrgPayload) true wAck
      = ⟨200, [buildEvent 0 wReq wOrgPayload]⟩ :=
  (C2_admission_filter wOptsOrg 0 ⟨false⟩ wReq wOrgPayload wAck
    (by simp [wOptsOrg, wReq, validSignature, wMac])
    (by simp [wReq]) rfl).2.2 (by decide)

/-- Claim C3: the outbound message of an accepted delivery carries the
namespaced event type, the inbound host as source, the payload's repository
full name as subject, the delivery id as identifier, and as data the envelope
of the clock timestamp, the four whitelisted header values copied verbatim,
and the raw unmodified body. -/
theorem C3_outbound_event_shape (opts : ServerOptions) (now : Nat) (c : Ctx)
    (req : Request) (p : PayloadInfo) (att : Nat → SendOutcome)
    (hsig : validSignature opts.secrets req.body req.signature = true)
    (ht : req.eventType ≠ "")
    (hfwd : shouldForward opts req.hookID p = true) :
    (handle opts now c req (some p) true att).sent
      = [{ eventType := ghNamespace ++ req.eventType
           source := req.host
           subject := p.repository.fullName
           id := req.deliveryID
           extensions := buildExtensions req.eventType req.hookID p
           data := { when := now
                     headers := { hookID := req.hookID
                                  deliveryID := req.deliveryID
                                  userAgent := req.userAgent
                                  event := req.eventType }
                     body := req.body } }] := by
  rw [handle_accepted_eq opts now c req (some p) att hsig ht hfwd]
  split <;> simp [buildEvent]

/-- Witness for C3 at the concrete accepted push delivery. -/
theorem C3_outbound_event_shape_witness :
    (handle wOpts 0 ⟨false⟩ wReq (some emptyPayloadInfo) true wAck).sent
      = [{ eventType := ghNamespace ++ wReq.eventType
           source := wReq.host
           subject := emptyPayloadInfo.repository.fullName
           id := wReq.deliveryID
           extensions := buildExtensions wReq.eventType wReq.hookID
             emptyPayloadInfo
           data := { when := 0
                     headers := { hookID := wReq.hookID
                                  deliveryID := wReq.deliveryID
                                  userAgent := wReq.userAgent
                                  event := wReq.eventType }
                     body := wReq.body } }] :=
  C3_outbound_event_shape wOpts 0 ⟨false⟩ wReq emptyPayloadInfo wAck
    (by simp [wOpts, wReq, validSignature, wMac]) (by simp [wReq]) (by decide)

/-- Claim C6: the outbound send of an accepted delivery is attempted at most
maxRetry times, the waits between attempts double from retryDelayMs, a final
outcome that is not an acknowledgement (not-acknowledged and undelivered
alike) is answered 500, and an acknowledged send is answered 200; there is no
retry beyond the budget. -/
theorem C6_retry_policy (opts : ServerOptions) (now : Nat) (c : Ctx)
    (req : Request) (p : PayloadInfo) (att : Nat → SendOutcome)
    (hsig : validSignature opts.secrets req.body req.signature = true)
    (ht : req.eventType ≠ "")
    (hfwd : shouldForward opts req.hookID p = true) :
    ((sendWithRetry att).2.length + 1 ≤ maxRetry)
    ∧ ((sendWithRetry att).2
        = (List.range (sendWithRetry att).2.length).map
            fun k => retryDelayMs * 2 ^ k)
    ∧ ((sendWithRetry att).1 ≠ SendOutcome.ack →
        handle opts now c req (some p) true att
          = ⟨500, [buildEvent now req p]⟩)
    ∧ ((sendWithRetry att).1 = SendOutcome.ack →
        handle opts now c req (some p) true att
          = ⟨200, [buildEvent now req p]⟩) := by
  refine ⟨(sendWithRetry_bound att).1, (sendWithRetry_bound att).2, ?_, ?_⟩
  · intro hne
    rw [handle_accepted_eq opts now c req (some p) att hsig ht hfwd]
    simp [hne]
  · intro hds
    rw [handle_accepted_eq opts now c req (some p) att hsig ht hfwd]
    simp [hds]

/-- Witness for C6: a transport that always refuses yields 500 after the
bounded retries. -/
theorem C6_retry_policy_witness :
    handle wOpts 0 ⟨false⟩ wReq (some emptyPayloadInfo) true wNack
      = ⟨500, [buildEvent 0 wReq emptyPayloadInfo]⟩ :=
  (C6_retry_policy wOpts 0 ⟨false⟩ wReq emptyPayloadInfo wNack
    (by simp [wOpts, wReq, validSignature, wMac]) (by simp [wReq])
    (by decide)).2.2.1 (by decide)

/-- Claim C7: a verified delivery whose body fails to parse is processed
exactly as if the payload were the maximally-empty PayloadInfo: the delivery
is still built and forwarded (here with a healthy transport, answered 200
with one event), its extension map is just the empty action and the hook id,
and its subject is empty. -/
theorem C7_malformed_payload_nonfatal (opts : ServerOptions) (now : Nat)
    (c : Ctx) (req : Request) (att : Nat → SendOutcome)
    (hsig : validSignature opts.secrets req.body req.signature = true)
    (ht : req.eventType ≠ "")
    (hfwd : shouldForward opts req.hookID emptyPayloadInfo = true)
    (hack : att 0 = SendOutcome.ack) :
    handle opts now c req none true att
      = handle opts now c req (some emptyPayloadInfo) true att
    ∧ handle opts now c req none true att
      = ⟨200, [buildEvent now req emptyPayloadInfo]⟩
    ∧ buildExtensions req.eventType req.hookID emptyPayloadInfo
      = [("action", ""), ("githubhook", req.hookID)]
    ∧ (buildEvent now req emptyPayloadInfo).subject = "" := by
  refine ⟨rfl, ?_, buildExtensions_empty req.eventType req.hookID, rfl⟩
  rw [handle_accepted_eq opts now c req none att hsig ht hfwd,
    sendWithRetry_ack hack]
  simp

/-- Witness for C7: the concrete push request with an unparseable body. -/
theorem C7_malformed_payload_nonfatal_witness :
    handle wOpts 0 ⟨false⟩ wReq none true wAck
      = ⟨200, [buildEvent 0 wReq emptyPayloadInfo]⟩ :=
  (C7_malformed_payload_nonfatal wOpts 0 ⟨false⟩ wReq wAck
    (by simp [wOpts, wReq, validSignature, wMac]) (by simp [wReq])
    (by decide) rfl).2.1

/-- An event type other than pull_request derives no pullrequest extension. -/
theorem extractPullRequestInfo_not_pr (t : String) (p : PayloadInfo)
    (h : t ≠ "pull_request") : extractPullRequestInfo t p = "" := by
  simp [extractPullRequestInfo, h]

/-- An event type other than pull_request derives no merged extension. -/
theorem isPullRequestMerged_not_pr (t : String) (p : PayloadInfo)
    (h : t ≠ "pull_request") : isPullRequestMerged t p = false := by
  unfold isPullRequestMerged
  rw [decide_eq_false_iff_not]
  rintro ⟨h1, -⟩
  exact h h1

/-- For issue_comment the selected pull-request number is the issue number
when the issue carries the pull-request marker, and 0 otherwise. -/
theorem prNumberFor_issue_comment (p : PayloadInfo) :
    prNumberFor "issue_comment" p
      = if p.issue.hasPullRequestMarker then p.issue.number else 0 := by
  simp [prNumberFor]

/-- An issue_comment on a pull request derives the pull-request URL from the
issue number. -/
theorem extractPullRequestURL_marker (p : PayloadInfo)
    (howner : p.repository.ownerLogin ≠ "") (hname : p.repository.name ≠ "")
    (hnum : p.issue.number ≠ 0) (hm : p.issue.hasPullRequestMarker = true) :
    extractPullRequestURL "issue_comment" p
      = "https://github.com/" ++ p.repository.ownerLogin ++ "/"
        ++ p.repository.name ++ "/pull/" ++ toString p.issue.number := by
  simp [extractPullRequestURL, prNumberFor_issue_comment, hm, howner, hname,
    hnum]

/-- An issue_comment on a plain issue derives no pull-request URL. -/
theorem extractPullRequestURL_no_marker (p : PayloadInfo)
    (hm : p.issue.hasPullRequestMarker = false) :
    extractPullRequestURL "issue_comment" p = "" := by
  simp [extractPullRequestURL, prNumberFor_issue_comment, hm]

/-- An issue_comment on a pull request derives no issue URL. -/
theorem extractIssueURL_marker (p : PayloadInfo)
    (hm : p.issue.hasPullRequestMarker = true) :
    extractIssueURL "issue_comment" p = "" := by
  simp [extractIssueURL, hm]

/-- An issue_comment on a plain issue derives the issue URL from the issue
number. -/
theorem extractIssueURL_no_marker (p : PayloadInfo)
    (hm : p.issue.hasPullRequestMarker = false)
    (howner : p.repository.ownerLogin ≠ "") (hname : p.repository.name ≠ "")
    (hnum : p.issue.number ≠ 0) :
    extractIssueURL "issue_comment" p
      = "https://github.com/" ++ p.repository.ownerLogin ++ "/"
        ++ p.repository.name ++ "/issues/" ++ toString p.issue.number := by
  simp [extractIssueURL, hm, howner, hname, hnum]

/-- A derived URL is never empty: it starts with the literal host part. -/
theorem github_url_ne_empty (a b c d : String) :
    "https://github.com/" ++ a ++ b ++ c ++ d ≠ "" :=
  append_ne_of_left _ (append_ne_of_left _ (append_ne_of_left _
    (append_ne_of_left _ (by decide))))

/-- Claim C4 (counterexample): the in-repo tests pin the pullrequest
extension to the repository full name; with number 123, full name foo/bar and
empty owner login and name the extension is present with value foo/bar#123,
contradicting the claim that it is absent unless owner and name are both
non-empty. -/
theorem C4_counterexample :
    extractPullRequestInfo "pull_request" c4Payload = "foo/bar#123"
    ∧ c4Payload.repository.ownerLogin = ""
    ∧ c4Payload.repository.name = "" := by decide

/-- Claim C4 (amended): the pullrequest extension value is present exactly
when the event type is pull_request, the pull-request number is nonzero and
the repository full name is non-empty, and it then equals
full_name#number. -/
theorem C4_pullrequest_extension (eventType : String) (p : PayloadInfo) :
    (extractPullRequestInfo eventType p ≠ "" ↔
      (eventType = "pull_request" ∧ p.pullRequest.number ≠ 0
        ∧ p.repository.fullName ≠ ""))
    ∧ (eventType = "pull_request" → p.pullRequest.number ≠ 0 →
        p.repository.fullName ≠ "" →
        extractPullRequestInfo eventType p
          = p.repository.fullName ++ "#" ++ toString p.pullRequest.number) := by
  constructor
  · unfold extractPullRequestInfo
    split
    · rename_i hcond
      refine ⟨fun _ => hcond, fun _ => ?_⟩
      exact append_ne_of_left _ (append_ne_of_right _ (by decide))
    · rename_i hcond
      simp [hcond]
  · intro h1 h2 h3
    unfold extractPullRequestInfo
    rw [if_pos ⟨h1, h2, h3⟩]

/-- Witness for the amended C4 at the counterexample payload. -/
theorem C4_pullrequest_extension_witness :
    extractPullRequestInfo "pull_request" c4Payload
      = c4Payload.repository.fullName ++ "#"
        ++ toString c4Payload.pullRequest.number :=
  (C4_pullrequest_extension "pull_request" c4Payload).2 rfl (by decide)
    (by decide)

/-- Claim C5: an accepted issue_comment delivery with owner login, repository
name and issue number present carries exactly one of pullrequesturl and
issueurl: pullrequesturl (built from the issue number) when the issue carries
the pull-request marker, and issueurl when it does not. -/
theorem C5_issue_comment_exclusive (opts : ServerOptions) (now : Nat)
    (c : Ctx) (req : Request) (p : PayloadInfo) (att : Nat → SendOutcome)
    (hsig : validSignature opts.secrets req.body req.signature = true)
    (het : req.eventType = "issue_comment")
    (hfwd : shouldForward opts req.hookID p = true)
    (howner : p.repository.ownerLogin ≠ "") (hname : p.repository.name ≠ "")
    (hnum : p.issue.number ≠ 0) :
    ∃ ev, (handle opts now c req (some p) true att).sent = [ev]
      ∧ (p.issue.hasPullRequestMarker = true →
          hasExtension ev "pullrequesturl" = true
          ∧ hasExtension ev "issueurl" = false
          ∧ extractPullRequestURL req.eventType p
              = "https://github.com/" ++ p.repository.ownerLogin ++ "/"
                ++ p.repository.name ++ "/pull/" ++ toString p.issue.number)
      ∧ (p.issue.hasPullRequestMarker = false →
          hasExtension ev "issueurl" = true
          ∧ hasExtension ev "pullrequesturl" = false) := by
  have ht : req.eventType ≠ "" := by rw [het]; decide
  have hinfo : extractPullRequestInfo "issue_comment" p = "" :=
    extractPullRequestInfo_not_pr _ p (by decide)
  have hmerged : isPullRequestMerged "issue_comment" p = false :=
    isPullRequestMerged_not_pr _ p (by decide)
  refine ⟨buildEvent now req p, ?_, ?_, ?_⟩
  · rw [handle_accepted_eq opts now c req (some p) att hsig ht hfwd]
    split <;> rfl
  · intro hm
    have hpr := extractPullRequestURL_marker p howner hname hnum hm
    have hiu := extractIssueURL_marker p hm
    have hne : extractPullRequestURL "issue_comment" p ≠ "" := by
      rw [hpr]
      exact github_url_ne_empty _ _ _ _
    refine ⟨?_, ?_, het ▸ hpr⟩
    · simp [buildEvent, hasExtension, buildExtensions, het, hinfo, hmerged,
        hiu, hne]
    · simp [buildEvent, hasExtension, buildExtensions, het, hinfo, hmerged,
        hiu, hne]
  · intro hm
    have hpr := extractPullRequestURL_no_marker p hm
    have hiu := extractIssueURL_no_marker p hm howner hname hnum
    have hne : extractIssueURL "issue_comment" p ≠ "" := by
      rw [hiu]
      exact github_url_ne_empty _ _ _ _
    constructor
    · simp [buildEvent, hasExtension, buildExtensions, het, hinfo, hmerged,
        hpr, hne]
    · simp [buildEvent, hasExtension, buildExtensions, het, hinfo, hmerged,
        hpr, hne]

/-- Witness for C5: the concrete issue_comment-on-PR delivery carries the
pull-request URL and no issue URL. -/
theorem C5_issue_comment_exclusive_witness :
    ∃ ev, (handle wOpts 0 ⟨false⟩ wReqIC (some wICPayload) true wAck).sent
        = [ev]
      ∧ hasExtension ev "pullrequesturl" = true
      ∧ hasExtension ev "issueurl" = false := by
  obtain ⟨ev, h1, h2, -⟩ :=
    C5_issue_comment_exclusive wOpts 0 ⟨false⟩ wReqIC wICPayload wAck
      (by simp [wOpts, wReqIC, wReq, validSignature, wMac]) rfl (by decide)
      (by decide) (by decide) (by decide)
  exact ⟨ev, h1, (h2 rfl).1, (h2 rfl).2.1⟩

/-- Claim C10: on a verified and admitted delivery whose envelope fails to
serialize, the handler answers 500 and the delivery client is never invoked. -/
theorem C10_serialize_failure_atomic (opts : ServerOptions) (now : Nat)
    (c : Ctx) (req : Request) (p : PayloadInfo) (att : Nat → SendOutcome)
    (hsig : validSignature opts.secrets req.body req.signature = true)
    (ht : req.eventType ≠ "")
    (hfwd : shouldForward opts req.hookID p = true) :
    handle opts now c req (some p) false att = ⟨500, []⟩ := by
  simp [handle, hsig, ht, hfwd]

/-- Witness for C10: the concrete admitted request with failing
serialization. -/
theorem C10_serialize_failure_atomic_witness :
    handle wOpts 0 ⟨false⟩ wReq (some emptyPayloadInfo) false wAck = ⟨500, []⟩ :=
  C10_serialize_failure_atomic wOpts 0 ⟨false⟩ wReq emptyPayloadInfo wAck
    (by simp [wOpts, wReq, validSignature, wMac]) (by simp [wReq]) (by decide)

end Trampoline
